import Mathlib

/-!
# Verification of the LCA-TOOL calculation engine

Shallow embedding of `src/lib/lca-calculations.ts` (the calculation/scoring
engine of the LCA-TOOL repository) together with the data model from
`src/types/lca.ts`.  JavaScript numbers are modelled as exact rationals
(`ℚ`); `Math.round` is Mathlib's `round` (both are `⌊x + 1/2⌋` on the
values that occur here); `Math.min` / `Math.max` are `min` / `max`.
String operations that the engine performs (`toLowerCase`, the
`[^a-z0-9]` strip, `trim`) are modelled at the character-list level,
which agrees with the JavaScript behaviour on the ASCII data the engine
manipulates.  Optional TypeScript fields (`waste?`, `companyName?`,
`benchmarkValue?`, `aiRecommendations?`) are `Option`s.  The impure
timestamp `new Date().toISOString()` is passed in as an explicit `now`
argument.  Numeric interpolations inside human-readable message strings
(JS `toFixed`) are rendered via `toString ∘ round`; no theorem below
depends on message text.
-/

/-! ## Data model (`src/types/lca.ts`) -/

structure RawMaterial where
  name : String
  quantity : ℚ
  unit : String
  source : String
deriving DecidableEq, Repr

/-- `type` is a string in the runtime model: the engine looks it up in the
factor table and falls back to the electricity factor when unrecognized. -/
structure EnergyInput where
  type : String
  amount : ℚ
  unit : String
deriving DecidableEq, Repr

structure Emission where
  type : String
  amount : ℚ
  unit : String
deriving DecidableEq, Repr

structure WaterUsage where
  consumption : ℚ
  discharge : ℚ
  recycled : ℚ
  unit : String
deriving DecidableEq, Repr

inductive TransportMode where
  | truck | rail | ship | air
deriving DecidableEq, Repr

structure Transport where
  mode : TransportMode
  distance : ℚ
  loadWeight : ℚ
deriving DecidableEq, Repr

structure WasteOutput where
  type : String
  amount : ℚ
  unit : String
  recycled : ℚ
deriving DecidableEq, Repr

structure LCAInput where
  projectName : String
  processType : String
  rawMaterials : List RawMaterial
  energy : List EnergyInput
  emissions : List Emission
  water : WaterUsage
  transport : List Transport
  waste : Option (List WasteOutput)
  companyName : Option String
deriving DecidableEq, Repr

structure ValidationWarning where
  field : String
  message : String
  usedBenchmark : Bool
  benchmarkValue : Option ℚ
deriving DecidableEq, Repr

inductive ImpactStatus where
  | good | warning | critical
deriving DecidableEq, Repr

structure ImpactResult where
  category : String
  value : ℚ
  unit : String
  benchmark : ℚ
  status : ImpactStatus
  description : String
deriving DecidableEq, Repr

structure Hotspot where
  area : String
  impact : ℚ
  contribution : ℤ
  recommendation : String
deriving DecidableEq, Repr

inductive AlignmentKind where
  | positive | neutral | negative
deriving DecidableEq, Repr

structure SDGAlignment where
  sdg : ℕ
  title : String
  alignment : AlignmentKind
  description : String
deriving DecidableEq, Repr

inductive Grade where
  | A | B | C | D | F
deriving DecidableEq, Repr

structure SustainabilityScore where
  overall : ℤ
  gwpScore : ℤ
  energyScore : ℤ
  waterScore : ℤ
  wasteScore : ℤ
  mciScore : ℤ
  grade : Grade
deriving DecidableEq, Repr

structure LCAResult where
  projectName : String
  companyName : Option String
  timestamp : String
  impacts : List ImpactResult
  hotspots : List Hotspot
  sdgAlignments : List SDGAlignment
  recommendations : List String
  circularEconomySuggestions : List String
  overallScore : ℤ
  sustainabilityScore : SustainabilityScore
  validationWarnings : List ValidationWarning
  aiRecommendations : Option (List String)
  isAIPowered : Bool
deriving DecidableEq, Repr

/-! ## Factor tables (module-level constants of the source) -/

/-- IPCC AR6 emission factors (kg CO2e per unit), keyed by energy type.
Association list preserving the object-literal order of the source. -/
def EMISSION_FACTORS : List (String × ℚ) :=
  [("electricity", 0.436), ("natural_gas", 2.02), ("diesel", 2.68),
   ("coal", 2.42), ("renewable", 0.012)]

/-- Ecoinvent transport emission factors (kg CO2e per tonne-km). -/
def TRANSPORT_FACTORS (m : TransportMode) : ℚ :=
  match m with
  | .truck => 0.0621
  | .rail => 0.0224
  | .ship => 0.0082
  | .air => 0.6023

/-- IPCC GWP100 factors; the list order is the JS object insertion order,
which `Object.entries` preserves in the substring search. -/
def GWP_FACTORS : List (String × ℚ) :=
  [("co2", 1), ("ch4", 29.8), ("n2o", 273), ("sf6", 25200),
   ("hfc", 1530), ("pfc", 9200)]

/-- Water impact factor (kg CO2e per m³). -/
def WATER_FACTOR : ℚ := 0.344

/-- Industry benchmarks (Ecoinvent 3.9). -/
structure Benchmarks where
  electricity_per_tonne : ℚ
  water_per_tonne : ℚ
  emission_factor_default : ℚ
  transport_distance : ℚ
  waste_recycle_rate : ℚ

def BENCHMARKS : Benchmarks :=
  { electricity_per_tonne := 500
    water_per_tonne := 5
    emission_factor_default := 1.5
    transport_distance := 200
    waste_recycle_rate := 0.3 }

/-! ## String helpers used by the engine

`e.type.toLowerCase().replace(/[^a-z0-9]/g, '')` and
`emissionType.includes(key)` from `calculateGWP`, and
`projectName.trim()` from `validateAndApplyBenchmarks`,
modelled on character lists. -/

/-- `toLowerCase` followed by stripping every character outside `[a-z0-9]`. -/
def normalizeEmissionType (s : String) : List Char :=
  (s.data.map Char.toLower).filter fun c => c.isLower || c.isDigit

/-- `leadsWith needle l` : `needle` is an initial segment of `l`. -/
def leadsWith : List Char → List Char → Bool
  | [], _ => true
  | _ :: _, [] => false
  | a :: as, b :: bs => a == b && leadsWith as bs

/-- `occursIn needle hay` : JS `hay.includes(needle)` (substring search). -/
def occursIn (needle : List Char) : List Char → Bool
  | [] => leadsWith needle []
  | b :: bs => leadsWith needle (b :: bs) || occursIn needle bs

/-- The WhiteSpace and LineTerminator code points stripped by JS
`String.prototype.trim` (ECMA-262): TAB, LF, VT, FF, CR, SP, NBSP,
U+1680, the U+2000..U+200A space separators, LS, PS, U+202F, U+205F,
U+3000 and ZWNBSP (U+FEFF). -/
def jsWhitespace (c : Char) : Bool :=
  decide (c.toNat = 0x09) || decide (c.toNat = 0x0A) || decide (c.toNat = 0x0B) ||
  decide (c.toNat = 0x0C) || decide (c.toNat = 0x0D) || decide (c.toNat = 0x20) ||
  decide (c.toNat = 0xA0) || decide (c.toNat = 0x1680) ||
  (decide (0x2000 ≤ c.toNat) && decide (c.toNat ≤ 0x200A)) ||
  decide (c.toNat = 0x2028) || decide (c.toNat = 0x2029) ||
  decide (c.toNat = 0x202F) || decide (c.toNat = 0x205F) ||
  decide (c.toNat = 0x3000) || decide (c.toNat = 0xFEFF)

/-- JS `String.prototype.trim`: strip the ECMA-262 whitespace set from
both ends. -/
def jsTrim (s : String) : String :=
  ⟨((s.data.dropWhile jsWhitespace).reverse.dropWhile jsWhitespace).reverse⟩

/-! ## Factor lookup helpers -/

/-- `EMISSION_FACTORS[e.type] || EMISSION_FACTORS.electricity`.  Every
factor in the table is nonzero, so JS truthiness coincides with lookup
success. -/
def energyFactor (t : String) : ℚ :=
  match EMISSION_FACTORS.find? (fun p => p.1 == t) with
  | some p => p.2
  | none => 0.436

/-- `Object.entries(GWP_FACTORS).find(([key]) => emissionType.includes(key))?.[1] || 1`.
Every multiplier in the table is nonzero, so JS truthiness coincides with
lookup success. -/
def gwpMultiplier (t : String) : ℚ :=
  match GWP_FACTORS.find? (fun p => occursIn p.1.data (normalizeEmissionType t)) with
  | some p => p.2
  | none => 1

/-! ## Input normalizer & benchmark imputer (`validateAndApplyBenchmarks`) -/

/-- Raw-material mass in kg: `reduce((sum, m) => sum + (m.unit === 'tonnes' ? m.quantity * 1000 : m.quantity), 0)`. -/
def rawMaterialKg (input : LCAInput) : ℚ :=
  (input.rawMaterials.map fun m =>
    if m.unit = "tonnes" then m.quantity * 1000 else m.quantity).sum

/-- `rawMaterialKg input || 1000`: in JS the only falsy sum is `0`. -/
def materialKgOr1000 (input : LCAInput) : ℚ :=
  if rawMaterialKg input = 0 then 1000 else rawMaterialKg input

/-- `input.energy.length === 0 || input.energy.every(e => e.amount === 0)`. -/
def energyMissing (input : LCAInput) : Bool :=
  input.energy.isEmpty || input.energy.all fun e => decide (e.amount = 0)

/-- `input.transport.length === 0 || input.transport.every(t => t.distance === 0)`. -/
def transportMissing (input : LCAInput) : Bool :=
  input.transport.isEmpty || input.transport.all fun t => decide (t.distance = 0)

/-- `input.emissions.length === 0 || input.emissions.every(e => e.amount === 0)`. -/
def emissionsMissing (input : LCAInput) : Bool :=
  input.emissions.isEmpty || input.emissions.all fun e => decide (e.amount = 0)

/-- `!input.projectName || input.projectName.trim() === ''`; the only falsy
string is the empty string. -/
def projectNameMissing (input : LCAInput) : Bool :=
  input.projectName == "" || jsTrim input.projectName == ""

structure ValidationResult where
  validatedInput : LCAInput
  warnings : List ValidationWarning
deriving DecidableEq, Repr

/-- The normalizer.  The source pushes warnings into a mutable array in the
fixed order Energy, Water, Transport, Emissions, Project Name and assigns
the replaced fields of a shallow clone of `input`; both effects are
rendered functionally here. -/
def validateAndApplyBenchmarks (input : LCAInput) : ValidationResult :=
  let totalMaterialKg := materialKgOr1000 input
  let benchmarkEnergy := totalMaterialKg / 1000 * BENCHMARKS.electricity_per_tonne
  let benchmarkWater := totalMaterialKg / 1000 * BENCHMARKS.water_per_tonne
  { validatedInput :=
      { input with
        energy :=
          if energyMissing input then
            [{ type := "electricity", amount := benchmarkEnergy, unit := "kWh" }]
          else input.energy
        water :=
          if input.water.consumption = 0 then
            { input.water with consumption := benchmarkWater }
          else input.water
        transport :=
          if transportMissing input then
            [{ mode := .truck, distance := BENCHMARKS.transport_distance,
               loadWeight := totalMaterialKg }]
          else input.transport
        projectName :=
          if projectNameMissing input then "Unnamed LCA Project"
          else input.projectName }
    warnings :=
      (if energyMissing input then
        [{ field := "Energy"
           message := "No energy data provided. Using industry benchmark: " ++
             toString (round benchmarkEnergy) ++ " kWh"
           usedBenchmark := true
           benchmarkValue := some benchmarkEnergy }]
       else []) ++
      (if input.water.consumption = 0 then
        [{ field := "Water"
           message := "No water consumption data. Using industry benchmark: " ++
             toString (round benchmarkWater) ++ " m3"
           usedBenchmark := true
           benchmarkValue := some benchmarkWater }]
       else []) ++
      (if transportMissing input then
        [{ field := "Transport"
           message := "No transport data. Using industry average: 200 km by truck"
           usedBenchmark := true
           benchmarkValue := some BENCHMARKS.transport_distance }]
       else []) ++
      (if emissionsMissing input then
        [{ field := "Emissions"
           message := "No direct emissions specified. Only indirect emissions from energy will be calculated."
           usedBenchmark := false
           benchmarkValue := none }]
       else []) ++
      (if projectNameMissing input then
        [{ field := "Project Name"
           message := "Project name was empty. Using default name."
           usedBenchmark := false
           benchmarkValue := none }]
       else []) }

/-! ## Impact calculator -/

/-- Energy-related GWP: `Σ e.amount * (EMISSION_FACTORS[e.type] || electricity)`. -/
def energyGWPOf (input : LCAInput) : ℚ :=
  (input.energy.map fun e => e.amount * energyFactor e.type).sum

/-- Direct-emission GWP: `Σ e.amount * gwpFactor` with substring-resolved factor. -/
def emissionsGWPOf (input : LCAInput) : ℚ :=
  (input.emissions.map fun e => e.amount * gwpMultiplier e.type).sum

/-- Transport GWP: `Σ (t.distance * t.loadWeight * TRANSPORT_FACTORS[t.mode]) / 1000`. -/
def transportGWPOf (input : LCAInput) : ℚ :=
  (input.transport.map fun t =>
    t.distance * t.loadWeight * TRANSPORT_FACTORS t.mode / 1000).sum

/-- Water-related GWP: `consumption * WATER_FACTOR`. -/
def waterGWPOf (input : LCAInput) : ℚ :=
  input.water.consumption * WATER_FACTOR

/-- `calculateGWP`: total of the four accumulation phases, then
`Math.round(totalGWP * 100) / 100`. -/
def calculateGWP (input : LCAInput) : ℚ :=
  let totalGWP := energyGWPOf input + emissionsGWPOf input +
    transportGWPOf input + waterGWPOf input
  (round (totalGWP * 100) : ℚ) / 100

/-- `calculateEnergyIntensity`: energy in MJ (kWh×3.6, MJ as-is, unknown
units as kWh) over material mass in kg (kg/tonnes entries only). -/
def calculateEnergyIntensity (input : LCAInput) : ℚ :=
  let totalEnergy := (input.energy.map fun e =>
    if e.unit = "kWh" then e.amount * 3.6
    else if e.unit = "MJ" then e.amount
    else e.amount * 3.6).sum
  let totalMaterial := (input.rawMaterials.map fun m =>
    if m.unit = "kg" ∨ m.unit = "tonnes" then
      (if m.unit = "tonnes" then m.quantity * 1000 else m.quantity)
    else 0).sum
  if totalMaterial > 0 then (round (totalEnergy / totalMaterial * 100) : ℚ) / 100
  else 0

/-- `calculateWaterFootprint`: `Math.round(Math.max(0, consumption - recycled) * 100) / 100`. -/
def calculateWaterFootprint (input : LCAInput) : ℚ :=
  let netConsumption := input.water.consumption - input.water.recycled
  (round (max 0 netConsumption * 100) : ℚ) / 100

/-! ## Circularity scorer (`calculateMCI`) -/

/-- `recycled / consumption` when `consumption > 0`, else `0`. -/
def waterRecycleRateOf (input : LCAInput) : ℚ :=
  if input.water.consumption > 0 then
    input.water.recycled / input.water.consumption
  else 0

/-- Renewable share of total energy (`0` when total is `0`). -/
def renewableShareOf (input : LCAInput) : ℚ :=
  if (input.energy.map fun e => e.amount).sum > 0 then
    ((input.energy.filter fun e => e.type == "renewable").map
      fun e => e.amount).sum / (input.energy.map fun e => e.amount).sum
  else 0

/-- Mean of `recycled / max(amount, 1)` over the waste list; the industry
benchmark when `input.waste?.length` is falsy (absent or empty list). -/
def wasteRecycleRateOf (input : LCAInput) : ℚ :=
  match input.waste with
  | some (w :: ws) =>
    (((w :: ws).map fun x => x.recycled / max x.amount 1).sum) /
      ((w :: ws).length : ℚ)
  | _ => BENCHMARKS.waste_recycle_rate

/-- `calculateMCI`: weighted combination of the three rates, clamped at 100,
rounded to one decimal; `0` when total material mass is `0`. -/
def calculateMCI (input : LCAInput) : ℚ :=
  if rawMaterialKg input = 0 then 0
  else
    let mci := (waterRecycleRateOf input * 0.3 + renewableShareOf input * 0.3 +
      wasteRecycleRateOf input * 0.4) * 100
    (round (min 100 mci * 10) : ℚ) / 10

/-! ## Sustainability scorer (`calculateSustainabilityScore`) -/

/-- `gwpScore = Math.max(0, Math.min(100, 100 - gwpPerTonne / 20))` with
`gwpPerTonne = gwp / totalMaterial * 1000`. -/
def gwpScoreRaw (input : LCAInput) (gwp : ℚ) : ℚ :=
  max 0 (min 100 (100 - gwp / materialKgOr1000 input * 1000 / 20))

/-- `energyScore = Math.max(0, Math.min(100, 100 - energyIntensity / 1))`. -/
def energyScoreRaw (energyIntensity : ℚ) : ℚ :=
  max 0 (min 100 (100 - energyIntensity / 1))

/-- `waterScore = Math.max(0, Math.min(100, 100 - waterPerTonne / 0.1))` with
`waterPerTonne = waterFootprint / totalMaterial * 1000`. -/
def waterScoreRaw (input : LCAInput) (waterFootprint : ℚ) : ℚ :=
  max 0 (min 100 (100 - waterFootprint / materialKgOr1000 input * 1000 / 0.1))

/-- The `wasteScore` local of `calculateSustainabilityScore`:
`input.waste?.length ? (Σ recycled/max(amount,1))/length*100
                     : recycled/Math.max(consumption,1)*100`,
then `Math.min(100, ·)`. -/
def wasteScoreRaw (input : LCAInput) : ℚ :=
  let wasteRecycleRate :=
    match input.waste with
    | some (w :: ws) =>
      (((w :: ws).map fun x => x.recycled / max x.amount 1).sum) /
        ((w :: ws).length : ℚ) * 100
    | _ => input.water.recycled / max input.water.consumption 1 * 100
  min 100 wasteRecycleRate

/-- `calculateSustainabilityScore`.  `overall` combines the unrounded
sub-scores; the record stores each sub-score rounded to an integer. -/
def calculateSustainabilityScore (input : LCAInput)
    (gwp energyIntensity waterFootprint : ℚ) : SustainabilityScore :=
  let gwpScore := gwpScoreRaw input gwp
  let energyScore := energyScoreRaw energyIntensity
  let waterScore := waterScoreRaw input waterFootprint
  let wasteScore := wasteScoreRaw input
  let mciScore := calculateMCI input
  let overall := round (gwpScore * 0.30 + energyScore * 0.25 +
    waterScore * 0.15 + wasteScore * 0.15 + mciScore * 0.15)
  { overall := overall
    gwpScore := round gwpScore
    energyScore := round energyScore
    waterScore := round waterScore
    wasteScore := round wasteScore
    mciScore := round mciScore
    grade :=
      if overall ≥ 80 then .A
      else if overall ≥ 65 then .B
      else if overall ≥ 50 then .C
      else if overall ≥ 35 then .D
      else .F }

/-! ## Hotspot analyzer (`identifyHotspots`) -/

/-- Stable insertion keeping the list in descending `contribution` order:
an element moves ahead only of strictly smaller contributions, which
reproduces the stable JS `sort((a, b) => b.contribution - a.contribution)`. -/
def insertHotspot (h : Hotspot) : List Hotspot → List Hotspot
  | [] => [h]
  | x :: xs =>
    if x.contribution ≤ h.contribution then h :: x :: xs
    else x :: insertHotspot h xs

/-- Stable sort, descending by `contribution`. -/
def sortHotspots : List Hotspot → List Hotspot
  | [] => []
  | h :: t => insertHotspot h (sortHotspots t)

/-- `identifyHotspots`: empty when the (rounded) total GWP is 0; otherwise
the nonzero categories in evaluation order energy, transport, direct
emissions, water, each with `contribution = Math.round(categoryGWP /
totalGWP * 100)` and a threshold-chosen recommendation, finally sorted
descending by contribution. -/
def identifyHotspots (input : LCAInput) : List Hotspot :=
  let totalGWP := calculateGWP input
  if totalGWP = 0 then []
  else
    let energyGWP := energyGWPOf input
    let transportGWP := transportGWPOf input
    let directGWP := emissionsGWPOf input
    let waterGWP := waterGWPOf input
    sortHotspots (
      (if energyGWP > 0 then
        let contribution := energyGWP / totalGWP * 100
        [{ area := "Energy Consumption"
           impact := energyGWP
           contribution := round contribution
           recommendation :=
             if contribution > 40 then
               "PRIORITY: Transition to renewable energy sources - potential 80%+ reduction"
             else "Optimize energy efficiency through process improvements" }]
       else []) ++
      (if transportGWP > 0 then
        let contribution := transportGWP / totalGWP * 100
        [{ area := "Transportation"
           impact := transportGWP
           contribution := round contribution
           recommendation :=
             if contribution > 20 then
               "PRIORITY: Shift to rail/ship transport or optimize routes"
             else "Consider local sourcing to reduce transport distances" }]
       else []) ++
      (if directGWP > 0 then
        let contribution := directGWP / totalGWP * 100
        [{ area := "Direct Process Emissions"
           impact := directGWP
           contribution := round contribution
           recommendation :=
             if contribution > 30 then
               "PRIORITY: Implement emission capture or process optimization"
             else "Monitor and report emissions for continuous improvement" }]
       else []) ++
      (if waterGWP > 0 then
        let contribution := waterGWP / totalGWP * 100
        let recycleRate := input.water.recycled / input.water.consumption * 100
        [{ area := "Water Usage"
           impact := waterGWP
           contribution := round contribution
           recommendation :=
             if recycleRate < 50 then
               "Implement closed-loop water recycling systems"
             else "Good recycling rate - focus on water treatment efficiency" }]
       else []))

/-! ## Goal alignment classifier (`calculateSDGAlignment`) -/

/-- `calculateSDGAlignment` (SDG 9, 12, 13).  Interpolated percentages in
the descriptions are rendered via `toString ∘ round`. -/
def calculateSDGAlignment (input : LCAInput) (gwp : ℚ) : List SDGAlignment :=
  let totalEnergy := (input.energy.map fun e => e.amount).sum
  let renewableShare :=
    if totalEnergy > 0 then
      ((input.energy.filter fun e => e.type == "renewable").map
        fun e => e.amount).sum / totalEnergy * 100
    else 0
  let recycleRate :=
    if input.water.consumption > 0 then
      input.water.recycled / input.water.consumption * 100
    else 0
  let totalMaterial :=
    if rawMaterialKg input = 0 then 1 else rawMaterialKg input
  let gwpPerTonne := gwp / totalMaterial * 1000
  [{ sdg := 9
     title := "Industry, Innovation & Infrastructure"
     alignment :=
       if renewableShare > 30 then .positive
       else if renewableShare > 10 then .neutral
       else .negative
     description :=
       if renewableShare > 30 then
         toString (round renewableShare) ++
           "% renewable energy supports sustainable industrialization"
       else "Opportunity to increase renewable energy adoption in operations" },
   { sdg := 12
     title := "Responsible Consumption & Production"
     alignment :=
       if recycleRate > 50 then .positive
       else if recycleRate > 25 then .neutral
       else .negative
     description :=
       if recycleRate > 50 then
         "Excellent " ++ toString (round recycleRate) ++
           "% water recycling rate supports circular economy"
       else "Implement circular economy practices for materials and water" },
   { sdg := 13
     title := "Climate Action"
     alignment :=
       if gwpPerTonne < 500 then .positive
       else if gwpPerTonne < 1000 then .neutral
       else .negative
     description :=
       if gwpPerTonne < 500 then
         "Low carbon intensity aligns with Paris Agreement goals"
       else "Carbon intensity of " ++ toString (round gwpPerTonne) ++
         " kg CO2e/tonne - reduction opportunities exist" }]

/-! ## Result assembler (`generateLCAResult`) -/

/-- `generateLCAResult`.  The impure `new Date().toISOString()` is passed
in as `now`. -/
def generateLCAResult (input : LCAInput) (aiRecommendations : Option (List String))
    (now : String) : LCAResult :=
  let validated := validateAndApplyBenchmarks input
  let validatedInput := validated.validatedInput
  let warnings := validated.warnings
  let gwp := calculateGWP validatedInput
  let energyIntensity := calculateEnergyIntensity validatedInput
  let waterFootprint := calculateWaterFootprint validatedInput
  let hotspots := identifyHotspots validatedInput
  let sdgAlignments := calculateSDGAlignment validatedInput gwp
  let sustainabilityScore :=
    calculateSustainabilityScore validatedInput gwp energyIntensity waterFootprint
  let impacts : List ImpactResult :=
    [{ category := "Global Warming Potential (GWP)"
       value := gwp
       unit := "kg CO2e"
       benchmark := 1000
       status := if gwp < 500 then .good else if gwp < 1500 then .warning else .critical
       description := "Total greenhouse gas emissions (IPCC AR6 factors)" },
     { category := "Energy Intensity"
       value := energyIntensity
       unit := "MJ/kg"
       benchmark := 50
       status :=
         if energyIntensity < 30 then .good
         else if energyIntensity < 70 then .warning
         else .critical
       description := "Energy consumed per unit of material processed" },
     { category := "Water Footprint"
       value := waterFootprint
       unit := "m3"
       benchmark := 100
       status :=
         if waterFootprint < 50 then .good
         else if waterFootprint < 150 then .warning
         else .critical
       description := "Net water consumption after recycling" }]
  let recommendations : List String :=
    [(match hotspots with
      | h :: _ =>
        if h.contribution > 40 then
          "PRIORITY: Address " ++ h.area ++ " - contributing " ++
            toString h.contribution ++ "% of total impact"
        else
          "No single hotspot dominates - focus on incremental improvements across all areas"
      | [] =>
        "No single hotspot dominates - focus on incremental improvements across all areas"),
     (match sdgAlignments.find? fun s => s.alignment == .negative with
      | some s => "SDG Gap: " ++ s.title ++ " needs attention"
      | none => "Strong SDG alignment across all measured goals"),
     (if energyIntensity > 50 then
        "Consider energy audits to identify efficiency opportunities"
      else "Energy efficiency is performing well"),
     (if sustainabilityScore.mciScore < 30 then
        "Improve material circularity through recycling and renewable inputs"
      else "Good circularity practices - continue optimization")]
  let circularEconomySuggestions : List String :=
    ["Implement industrial symbiosis - partner with nearby facilities for waste-to-resource exchanges",
     "Design for recyclability in product specifications",
     "Explore renewable energy PPAs (Power Purchase Agreements) for long-term decarbonization",
     "Consider carbon capture technologies for high-emission processes",
     "Optimize packaging and logistics for reduced material use"]
  { projectName := validatedInput.projectName
    companyName := validatedInput.companyName
    timestamp := now
    impacts := impacts
    hotspots := hotspots
    sdgAlignments := sdgAlignments
    recommendations := recommendations
    circularEconomySuggestions := circularEconomySuggestions
    overallScore := sustainabilityScore.overall
    sustainabilityScore := sustainabilityScore
    validationWarnings := warnings
    aiRecommendations := aiRecommendations
    isAIPowered :=
      match aiRecommendations with
      | some l => decide (0 < l.length)
      | none => false }

/-! ## Specification-side definitions

These follow the wording of the specification claims, to be compared with
the definitions translated from the source. -/

/-- Claim C2's energy factor: each recognized type's factor, with the
electricity factor as fallback for an unrecognized type. -/
def specEnergyFactor (t : String) : ℚ :=
  if t = "electricity" then 0.436
  else if t = "natural_gas" then 2.02
  else if t = "diesel" then 2.68
  else if t = "coal" then 2.42
  else if t = "renewable" then 0.012
  else 0.436

/-- Claim C2's GWP multiplier: the first key in the fixed order co2, ch4,
n2o, sf6, hfc, pfc occurring as a substring of the lowercased
alphanumeric-stripped type, multiplier 1 when no key matches. -/
def specGwpMultiplier (t : String) : ℚ :=
  if occursIn "co2".data (normalizeEmissionType t) then 1
  else if occursIn "ch4".data (normalizeEmissionType t) then 29.8
  else if occursIn "n2o".data (normalizeEmissionType t) then 273
  else if occursIn "sf6".data (normalizeEmissionType t) then 25200
  else if occursIn "hfc".data (normalizeEmissionType t) then 1530
  else if occursIn "pfc".data (normalizeEmissionType t) then 9200
  else 1

/-- Claim C2's GWP formula: rounded to 2 decimal places, the sum of the
energy, emission, transport and water terms. -/
def specGWP (input : LCAInput) : ℚ :=
  let total :=
    (input.energy.map fun e => e.amount * specEnergyFactor e.type).sum +
    (input.emissions.map fun e => e.amount * specGwpMultiplier e.type).sum +
    (input.transport.map fun t =>
      t.distance * t.loadWeight * TRANSPORT_FACTORS t.mode / 1000).sum +
    input.water.consumption * WATER_FACTOR
  (round (total * 100) : ℚ) / 100

/-- Claim C3's waste score: mean of `recycled / max(amount, 1)` over a
non-empty waste list, else the water recycle rate (`recycled/consumption`,
`0` when consumption is `0`), times 100, clamped to 100. -/
def claimWasteScore (input : LCAInput) : ℚ :=
  match input.waste with
  | some (w :: ws) =>
    min 100 ((((w :: ws).map fun x => x.recycled / max x.amount 1).sum) /
      ((w :: ws).length : ℚ) * 100)
  | _ =>
    min 100 ((if input.water.consumption = 0 then 0
      else input.water.recycled / input.water.consumption) * 100)

/-- All numeric fields of the input are non-negative (the data-model
invariant of the specification). -/
def nonnegInput (input : LCAInput) : Bool :=
  input.rawMaterials.all (fun m => decide (0 ≤ m.quantity)) &&
  input.energy.all (fun e => decide (0 ≤ e.amount)) &&
  input.emissions.all (fun e => decide (0 ≤ e.amount)) &&
  decide (0 ≤ input.water.consumption) &&
  decide (0 ≤ input.water.discharge) &&
  decide (0 ≤ input.water.recycled) &&
  input.transport.all (fun t => decide (0 ≤ t.distance) && decide (0 ≤ t.loadWeight)) &&
  (input.waste.getD []).all (fun w => decide (0 ≤ w.amount) && decide (0 ≤ w.recycled))

/-! ## Helper lemmas -/

theorem round_nonneg {x : ℚ} (hx : 0 ≤ x) : 0 ≤ round x := by
  rw [round_eq]
  exact Int.floor_nonneg.2 (by linarith)

theorem round_le_int {x : ℚ} {n : ℤ} (hx : x ≤ (n : ℚ)) : round x ≤ n := by
  rw [round_eq]
  have h1 : (⌊x + 1 / 2⌋ : ℤ) ≤ ⌊(n : ℚ) + 1 / 2⌋ :=
    Int.floor_le_floor (by linarith)
  have h2 : (⌊(n : ℚ) + 1 / 2⌋ : ℤ) = n := by
    rw [Int.floor_int_add]
    norm_num
  omega

theorem sum_map_congr {α : Type} (l : List α) (f g : α → ℚ)
    (h : ∀ a ∈ l, f a = g a) : (l.map f).sum = (l.map g).sum := by
  induction l with
  | nil => rfl
  | cons a t ih =>
    simp only [List.map_cons, List.sum_cons]
    rw [h a (List.mem_cons_self a t), ih fun x hx => h x (List.mem_cons_of_mem a hx)]

theorem sum_map_nonneg {α : Type} (l : List α) (f : α → ℚ)
    (h : ∀ a ∈ l, 0 ≤ f a) : 0 ≤ (l.map f).sum := by
  induction l with
  | nil => simp
  | cons a t ih =>
    simp only [List.map_cons, List.sum_cons]
    have := h a (List.mem_cons_self a t)
    have := ih fun x hx => h x (List.mem_cons_of_mem a hx)
    linarith

theorem energyFactor_eq_spec (t : String) : energyFactor t = specEnergyFactor t := by
  unfold energyFactor specEnergyFactor EMISSION_FACTORS
  by_cases h1 : t = "electricity"
  · subst h1; simp
  rw [List.find?_cons_of_neg _ (by simp [Ne.symm h1]), if_neg h1]
  by_cases h2 : t = "natural_gas"
  · subst h2; simp
  rw [List.find?_cons_of_neg _ (by simp [Ne.symm h2]), if_neg h2]
  by_cases h3 : t = "diesel"
  · subst h3; simp
  rw [List.find?_cons_of_neg _ (by simp [Ne.symm h3]), if_neg h3]
  by_cases h4 : t = "coal"
  · subst h4; simp
  rw [List.find?_cons_of_neg _ (by simp [Ne.symm h4]), if_neg h4]
  by_cases h5 : t = "renewable"
  · subst h5; simp
  rw [List.find?_cons_of_neg _ (by simp [Ne.symm h5]), if_neg h5]
  simp [List.find?]

theorem gwpMultiplier_eq_spec (t : String) : gwpMultiplier t = specGwpMultiplier t := by
  unfold gwpMultiplier specGwpMultiplier GWP_FACTORS
  cases h1 : occursIn "co2".data (normalizeEmissionType t) <;>
    cases h2 : occursIn "ch4".data (normalizeEmissionType t) <;>
    cases h3 : occursIn "n2o".data (normalizeEmissionType t) <;>
    cases h4 : occursIn "sf6".data (normalizeEmissionType t) <;>
    cases h5 : occursIn "hfc".data (normalizeEmissionType t) <;>
    cases h6 : occursIn "pfc".data (normalizeEmissionType t) <;>
    simp [List.find?, h1, h2, h3, h4, h5, h6]

/-! ## Claim C2 -/

/-- C2: for every input, `calculateGWP` returns, rounded to 2 decimal
places, the sum of (a) each energy entry's amount times its emission
factor with electricity fallback, (b) each emission's amount times the
GWP multiplier of the first key in the order co2, ch4, n2o, sf6, hfc, pfc
occurring as a substring of the lowercased alphanumeric-stripped type
(1 when none matches), (c) each transport leg's
distance × loadWeight × mode factor / 1000, and (d) water consumption
times the water-to-CO2e factor. -/
theorem C2_calculateGWP_formula (input : LCAInput) :
    calculateGWP input = specGWP input := by
  unfold calculateGWP specGWP energyGWPOf emissionsGWPOf transportGWPOf waterGWPOf
  rw [sum_map_congr input.energy (fun e => e.amount * energyFactor e.type)
      (fun e => e.amount * specEnergyFactor e.type)
      (fun e _ => by simp only [energyFactor_eq_spec]),
    sum_map_congr input.emissions (fun e => e.amount * gwpMultiplier e.type)
      (fun e => e.amount * specGwpMultiplier e.type)
      (fun e _ => by simp only [gwpMultiplier_eq_spec])]

/-! ## Claim C3 -/

/-- No-waste input with zero water consumption but positive recycled
volume: the code scores it `recycled / max(consumption, 1) × 100 = 50`,
while the claim's water-recycle-rate formula gives `0`. -/
def inputC3 : LCAInput :=
  { projectName := "P"
    processType := "smelting"
    rawMaterials := []
    energy := []
    emissions := []
    water := { consumption := 0, discharge := 0, recycled := 1/2, unit := "m3" }
    transport := []
    waste := none
    companyName := none }

/-- C3 counterexample: at `inputC3` the waste score computed by the code
is 50, but the value the claim prescribes (water recycle rate, taken as 0
when consumption is 0, times 100, clamped) is 0. -/
theorem C3_counterexample :
    wasteScoreRaw inputC3 = 50 ∧ claimWasteScore inputC3 = 0 ∧
      wasteScoreRaw inputC3 ≠ claimWasteScore inputC3 := by
  refine ⟨?_, ?_, ?_⟩ <;>
    norm_num [wasteScoreRaw, claimWasteScore, inputC3, max_def, min_def]

/-- C3 (amended): with a non-empty waste list the waste score is the mean
of `recycled / max(amount, 1)` times 100 clamped to 100; with no waste
entries it is `recycled / max(consumption, 1)` times 100 clamped to 100
(the code guards the denominator with `max(·, 1)`, not with a zero test);
the record field is that value rounded. -/
theorem C3_amended_wasteScore (input : LCAInput)
    (gwp energyIntensity waterFootprint : ℚ) :
    (wasteScoreRaw input =
      match input.waste with
      | some (w :: ws) =>
        min 100 ((((w :: ws).map fun x => x.recycled / max x.amount 1).sum) /
          ((w :: ws).length : ℚ) * 100)
      | _ => min 100 (input.water.recycled / max input.water.consumption 1 * 100)) ∧
    (calculateSustainabilityScore input gwp energyIntensity waterFootprint).wasteScore =
      round (wasteScoreRaw input) := by
  constructor
  · unfold wasteScoreRaw
    rcases input.waste with _ | ⟨_ | ⟨w, ws⟩⟩ <;> rfl
  · rfl

/-! ## Claim C8 -/

/-- C8: the normalizer passes `rawMaterials`, `emissions`, `waste`,
`processType` and `companyName` through unchanged (it returns a fresh
record built from a shallow clone; in this pure embedding the caller's
record is immutable by construction). -/
theorem C8_frame_passthrough (input : LCAInput) :
    (validateAndApplyBenchmarks input).validatedInput.rawMaterials = input.rawMaterials ∧
    (validateAndApplyBenchmarks input).validatedInput.emissions = input.emissions ∧
    (validateAndApplyBenchmarks input).validatedInput.waste = input.waste ∧
    (validateAndApplyBenchmarks input).validatedInput.processType = input.processType ∧
    (validateAndApplyBenchmarks input).validatedInput.companyName = input.companyName :=
  ⟨rfl, rfl, rfl, rfl, rfl⟩

/-! ## Claim C9 -/

/-- C9: the duplicated top-level `overallScore` of a generated result
always equals `sustainabilityScore.overall`. -/
theorem C9_overallScore_consistency (input : LCAInput)
    (aiRecommendations : Option (List String)) (now : String) :
    (generateLCAResult input aiRecommendations now).overallScore =
      (generateLCAResult input aiRecommendations now).sustainabilityScore.overall :=
  rfl

/-! ## Claim C4 -/

theorem mem_ite_singleton {α : Type} {c : Prop} [Decidable c] {x w : α}
    (h : w ∈ if c then [x] else []) : w = x := by
  split at h
  · simpa using h
  · simp at h

/-- C4: with an empty (or all-zero) energy list the normalizer emits
exactly one "Energy" warning, that warning carries `usedBenchmark = true`,
and the normalized energy list is one electricity entry of amount
`(totalMaterialKg/1000) × 500`, with `totalMaterialKg` the raw-material
mass sum (tonnes × 1000, else as-is) or 1000 when that sum is 0. -/
theorem C4_energy_benchmark_imputation (input : LCAInput)
    (h : input.energy = [] ∨ ∀ e ∈ input.energy, e.amount = 0) :
    ((validateAndApplyBenchmarks input).warnings.countP
        (fun w => w.field == "Energy")) = 1 ∧
    (∀ w ∈ (validateAndApplyBenchmarks input).warnings,
        w.field = "Energy" → w.usedBenchmark = true) ∧
    (validateAndApplyBenchmarks input).validatedInput.energy =
      [{ type := "electricity"
         amount :=
           (if (input.rawMaterials.map fun m =>
                 if m.unit = "tonnes" then m.quantity * 1000 else m.quantity).sum = 0
            then (1000 : ℚ)
            else (input.rawMaterials.map fun m =>
                 if m.unit = "tonnes" then m.quantity * 1000 else m.quantity).sum)
             / 1000 * 500
         unit := "kWh" }] := by
  have hE : energyMissing input = true := by
    rcases h with h | h
    · simp [energyMissing, h]
    · unfold energyMissing
      rcases hL : input.energy with _ | ⟨e, es⟩
      · simp
      · simp only [Bool.or_eq_true, List.all_eq_true, decide_eq_true_iff]
        exact Or.inr fun x hx => h x (hL ▸ hx)
  refine ⟨?_, ?_, ?_⟩
  · unfold validateAndApplyBenchmarks
    simp only [hE, if_true, List.countP_append, List.countP_cons, List.countP_nil]
    have hone : List.countP (fun w => w.field == "Energy")
        [({ field := "Energy"
            message := "No energy data provided. Using industry benchmark: " ++
              toString (round (materialKgOr1000 input / 1000 *
                BENCHMARKS.electricity_per_tonne)) ++ " kWh"
            usedBenchmark := true
            benchmarkValue := some (materialKgOr1000 input / 1000 *
              BENCHMARKS.electricity_per_tonne) } : ValidationWarning)] = 1 := by
      simp [List.countP_cons]
    split_ifs <;> simp_all [List.countP_cons]
  · intro w hw
    unfold validateAndApplyBenchmarks at hw
    simp only [hE, if_true, List.mem_append] at hw
    rcases hw with ((((hw | hw) | hw) | hw) | hw)
    · simp at hw
      subst hw
      intro _
      rfl
    all_goals (have hx := mem_ite_singleton hw; subst hx; intro hfield; simp at hfield)
  · unfold validateAndApplyBenchmarks
    simp only [hE, if_true]
    simp [materialKgOr1000, rawMaterialKg, BENCHMARKS]

/-! ## Claim C10 -/

/-- C10: in every warning list the normalizer produces, `benchmarkValue`
is present exactly when `usedBenchmark` is true, and `usedBenchmark` is
true exactly for the Energy, Water and Transport substitution warnings. -/
theorem C10_warning_benchmark_invariant (input : LCAInput) (w : ValidationWarning)
    (hw : w ∈ (validateAndApplyBenchmarks input).warnings) :
    (w.benchmarkValue.isSome = w.usedBenchmark) ∧
    (w.usedBenchmark = true ↔
      w.field = "Energy" ∨ w.field = "Water" ∨ w.field = "Transport") := by
  unfold validateAndApplyBenchmarks at hw
  simp only [List.mem_append] at hw
  rcases hw with ((((hw | hw) | hw) | hw) | hw) <;>
    (have hx := mem_ite_singleton hw; subst hx; simp)

/-- C10 instantiated: an input with complete data except a blank project
name yields exactly the Project Name warning, which carries no benchmark
value and has `usedBenchmark = false`. -/
def inputBlankName : LCAInput :=
  { projectName := ""
    processType := "casting"
    rawMaterials := [{ name := "ore", quantity := 1000, unit := "kg", source := "mine" }]
    energy := [{ type := "electricity", amount := 1, unit := "kWh" }]
    emissions := [{ type := "co2", amount := 1, unit := "kg" }]
    water := { consumption := 1, discharge := 0, recycled := 0, unit := "m3" }
    transport := [{ mode := .truck, distance := 1, loadWeight := 1 }]
    waste := none
    companyName := none }

def warnBlankName : ValidationWarning :=
  { field := "Project Name"
    message := "Project name was empty. Using default name."
    usedBenchmark := false
    benchmarkValue := none }

theorem C10_warning_benchmark_invariant_witness :
    (warnBlankName.benchmarkValue.isSome = warnBlankName.usedBenchmark) ∧
    (warnBlankName.usedBenchmark = true ↔
      warnBlankName.field = "Energy" ∨ warnBlankName.field = "Water" ∨
        warnBlankName.field = "Transport") :=
  C10_warning_benchmark_invariant inputBlankName warnBlankName
    (by norm_num [validateAndApplyBenchmarks, energyMissing, transportMissing,
      emissionsMissing, projectNameMissing, jsTrim, inputBlankName, warnBlankName])

/-! ## Claim C7 -/

/-- C7: on an input with nothing missing — non-empty energy, emissions
and transport lists with no zero amounts/distances, nonzero water
consumption and a non-blank project name — the normalizer emits zero
warnings and returns the input unchanged; in particular normalization is
idempotent on its own output. -/
theorem C7_normalization_idempotent (input : LCAInput)
    (h1 : input.energy ≠ []) (h2 : ∀ e ∈ input.energy, e.amount ≠ 0)
    (h3 : input.water.consumption ≠ 0)
    (h4 : input.transport ≠ []) (h5 : ∀ t ∈ input.transport, t.distance ≠ 0)
    (h6 : input.emissions ≠ []) (h7 : ∀ e ∈ input.emissions, e.amount ≠ 0)
    (h8 : jsTrim input.projectName ≠ "") :
    (validateAndApplyBenchmarks input).warnings = [] ∧
    (validateAndApplyBenchmarks input).validatedInput = input := by
  have hE : energyMissing input = false := by
    obtain ⟨e, es, hes⟩ := List.exists_cons_of_ne_nil h1
    have hne : e.amount ≠ 0 := h2 e (hes ▸ List.mem_cons_self e es)
    simp [energyMissing, hes, hne]
  have hT : transportMissing input = false := by
    obtain ⟨t, ts, hts⟩ := List.exists_cons_of_ne_nil h4
    have hne : t.distance ≠ 0 := h5 t (hts ▸ List.mem_cons_self t ts)
    simp [transportMissing, hts, hne]
  have hM : emissionsMissing input = false := by
    obtain ⟨e, es, hes⟩ := List.exists_cons_of_ne_nil h6
    have hne : e.amount ≠ 0 := h7 e (hes ▸ List.mem_cons_self e es)
    simp [emissionsMissing, hes, hne]
  have hP : projectNameMissing input = false := by
    have hne : input.projectName ≠ "" := by
      intro hh
      exact h8 (by rw [hh]; rfl)
    simp [projectNameMissing, beq_eq_false_iff_ne, hne, h8]
  refine ⟨?_, ?_⟩ <;>
    simp [validateAndApplyBenchmarks, hE, hT, hM, hP, h3]

/-- A fully populated input: nothing for the normalizer to touch. -/
def inputComplete : LCAInput :=
  { projectName := "Copper line"
    processType := "casting"
    rawMaterials := [{ name := "ore", quantity := 1000, unit := "kg", source := "mine" }]
    energy := [{ type := "electricity", amount := 1, unit := "kWh" }]
    emissions := [{ type := "co2", amount := 1, unit := "kg" }]
    water := { consumption := 1, discharge := 0, recycled := 0, unit := "m3" }
    transport := [{ mode := .truck, distance := 1, loadWeight := 1 }]
    waste := none
    companyName := none }

theorem C7_normalization_idempotent_witness :
    (validateAndApplyBenchmarks inputComplete).warnings = [] ∧
    (validateAndApplyBenchmarks inputComplete).validatedInput = inputComplete :=
  C7_normalization_idempotent inputComplete
    (by norm_num [inputComplete]) (by norm_num [inputComplete])
    (by norm_num [inputComplete]) (by norm_num [inputComplete])
    (by norm_num [inputComplete]) (by norm_num [inputComplete])
    (by norm_num [inputComplete]) (by decide)

theorem C4_energy_benchmark_imputation_witness :
    ((validateAndApplyBenchmarks inputC3).warnings.countP
        (fun w => w.field == "Energy")) = 1 ∧
    (∀ w ∈ (validateAndApplyBenchmarks inputC3).warnings,
        w.field = "Energy" → w.usedBenchmark = true) ∧
    (validateAndApplyBenchmarks inputC3).validatedInput.energy =
      [{ type := "electricity"
         amount :=
           (if (inputC3.rawMaterials.map fun m =>
                 if m.unit = "tonnes" then m.quantity * 1000 else m.quantity).sum = 0
            then (1000 : ℚ)
            else (inputC3.rawMaterials.map fun m =>
                 if m.unit = "tonnes" then m.quantity * 1000 else m.quantity).sum)
             / 1000 * 500
         unit := "kWh" }] :=
  C4_energy_benchmark_imputation inputC3 (Or.inl rfl)

/-! ## Claim C5: bounds machinery -/

theorem energyFactor_nonneg (t : String) : 0 ≤ energyFactor t := by
  unfold energyFactor
  cases hf : EMISSION_FACTORS.find? (fun p => p.1 == t) with
  | none => norm_num
  | some p =>
    have hm := List.mem_of_find?_eq_some hf
    simp only [EMISSION_FACTORS, List.mem_cons, List.not_mem_nil, or_false] at hm
    rcases hm with h | h | h | h | h <;> subst h <;> norm_num

theorem gwpMultiplier_nonneg (t : String) : 0 ≤ gwpMultiplier t := by
  unfold gwpMultiplier
  cases hf : GWP_FACTORS.find?
      (fun p => occursIn p.1.data (normalizeEmissionType t)) with
  | none => norm_num
  | some p =>
    have hm := List.mem_of_find?_eq_some hf
    simp only [GWP_FACTORS, List.mem_cons, List.not_mem_nil, or_false] at hm
    rcases hm with h | h | h | h | h | h <;> subst h <;> norm_num

theorem TRANSPORT_FACTORS_nonneg (m : TransportMode) : 0 ≤ TRANSPORT_FACTORS m := by
  cases m <;> norm_num [TRANSPORT_FACTORS]

theorem energyGWPOf_nonneg {input : LCAInput}
    (h : ∀ e ∈ input.energy, 0 ≤ e.amount) : 0 ≤ energyGWPOf input :=
  sum_map_nonneg _ _ fun e he => mul_nonneg (h e he) (energyFactor_nonneg _)

theorem emissionsGWPOf_nonneg {input : LCAInput}
    (h : ∀ e ∈ input.emissions, 0 ≤ e.amount) : 0 ≤ emissionsGWPOf input :=
  sum_map_nonneg _ _ fun e he => mul_nonneg (h e he) (gwpMultiplier_nonneg _)

theorem transportGWPOf_nonneg {input : LCAInput}
    (h : ∀ t ∈ input.transport, 0 ≤ t.distance ∧ 0 ≤ t.loadWeight) :
    0 ≤ transportGWPOf input :=
  sum_map_nonneg _ _ fun t ht => by
    obtain ⟨hd, hl⟩ := h t ht
    have hf := TRANSPORT_FACTORS_nonneg t.mode
    positivity

theorem waterGWPOf_nonneg {input : LCAInput}
    (h : 0 ≤ input.water.consumption) : 0 ≤ waterGWPOf input := by
  unfold waterGWPOf WATER_FACTOR
  positivity

theorem nonnegInput_props {input : LCAInput} (h : nonnegInput input = true) :
    (∀ m ∈ input.rawMaterials, 0 ≤ m.quantity) ∧
    (∀ e ∈ input.energy, 0 ≤ e.amount) ∧
    (∀ e ∈ input.emissions, 0 ≤ e.amount) ∧
    0 ≤ input.water.consumption ∧ 0 ≤ input.water.discharge ∧
    0 ≤ input.water.recycled ∧
    (∀ t ∈ input.transport, 0 ≤ t.distance ∧ 0 ≤ t.loadWeight) ∧
    (∀ w ∈ input.waste.getD [], 0 ≤ w.amount ∧ 0 ≤ w.recycled) := by
  unfold nonnegInput at h
  simp only [Bool.and_eq_true, List.all_eq_true, decide_eq_true_iff] at h
  tauto

theorem round_int_bounds {x : ℚ} {n : ℤ} (h0 : 0 ≤ x) (h1 : x ≤ (n : ℚ)) :
    0 ≤ round x ∧ round x ≤ n :=
  ⟨round_nonneg h0, round_le_int h1⟩

theorem clamp_bounds (x : ℚ) : 0 ≤ max 0 (min 100 x) ∧ max 0 (min 100 x) ≤ 100 :=
  ⟨le_max_left _ _, max_le (by norm_num) (min_le_left _ _)⟩

theorem wasteScoreRaw_bounds {input : LCAInput}
    (hw : ∀ w ∈ input.waste.getD [], 0 ≤ w.amount ∧ 0 ≤ w.recycled)
    (hr : 0 ≤ input.water.recycled) :
    0 ≤ wasteScoreRaw input ∧ wasteScoreRaw input ≤ 100 := by
  refine ⟨?_, min_le_left _ _⟩
  unfold wasteScoreRaw
  rcases hws : input.waste with _ | ⟨_ | ⟨w, ws⟩⟩
  · refine le_min (by norm_num) ?_
    have : (0 : ℚ) < max input.water.consumption 1 :=
      lt_of_lt_of_le one_pos (le_max_right _ _)
    positivity
  · refine le_min (by norm_num) ?_
    have : (0 : ℚ) < max input.water.consumption 1 :=
      lt_of_lt_of_le one_pos (le_max_right _ _)
    positivity
  · refine le_min (by norm_num) ?_
    have hsum : 0 ≤ (((w :: ws).map fun x => x.recycled / max x.amount 1).sum) := by
      refine sum_map_nonneg _ _ fun x hx => ?_
      have hx' := hw x (by rw [hws]; exact hx)
      have hpos : (0 : ℚ) < max x.amount 1 :=
        lt_of_lt_of_le one_pos (le_max_right _ _)
      exact div_nonneg hx'.2 hpos.le
    have hlen : (0 : ℚ) ≤ ((w :: ws).length : ℚ) := by positivity
    positivity

theorem waterRecycleRateOf_nonneg {input : LCAInput}
    (hr : 0 ≤ input.water.recycled) : 0 ≤ waterRecycleRateOf input := by
  unfold waterRecycleRateOf
  split
  · next hc => exact div_nonneg hr hc.le
  · exact le_refl 0

theorem renewableShareOf_nonneg {input : LCAInput}
    (h : ∀ e ∈ input.energy, 0 ≤ e.amount) : 0 ≤ renewableShareOf input := by
  unfold renewableShareOf
  split
  · next hc =>
    refine div_nonneg ?_ hc.le
    exact sum_map_nonneg _ _ fun e he => h e (List.mem_of_mem_filter he)
  · exact le_refl 0

theorem wasteRecycleRateOf_nonneg {input : LCAInput}
    (hw : ∀ w ∈ input.waste.getD [], 0 ≤ w.amount ∧ 0 ≤ w.recycled) :
    0 ≤ wasteRecycleRateOf input := by
  unfold wasteRecycleRateOf
  rcases hws : input.waste with _ | ⟨_ | ⟨w, ws⟩⟩
  · norm_num [BENCHMARKS]
  · norm_num [BENCHMARKS]
  · have hsum : 0 ≤ (((w :: ws).map fun x => x.recycled / max x.amount 1).sum) := by
      refine sum_map_nonneg _ _ fun x hx => ?_
      have hx' := hw x (by rw [hws]; exact hx)
      have hpos : (0 : ℚ) < max x.amount 1 :=
        lt_of_lt_of_le one_pos (le_max_right _ _)
      exact div_nonneg hx'.2 hpos.le
    positivity

theorem calculateMCI_bounds {input : LCAInput} (h : nonnegInput input = true) :
    0 ≤ calculateMCI input ∧ calculateMCI input ≤ 100 := by
  obtain ⟨-, hE, -, -, -, hr, -, hW⟩ := nonnegInput_props h
  unfold calculateMCI
  split
  · norm_num
  · have h1 := @waterRecycleRateOf_nonneg input hr
    have h2 := @renewableShareOf_nonneg input hE
    have h3 := @wasteRecycleRateOf_nonneg input hW
    have hmci : 0 ≤ (waterRecycleRateOf input * 0.3 + renewableShareOf input * 0.3 +
        wasteRecycleRateOf input * 0.4) * 100 := by positivity
    set mci := (waterRecycleRateOf input * 0.3 + renewableShareOf input * 0.3 +
        wasteRecycleRateOf input * 0.4) * 100 with hmdef
    have hv0 : 0 ≤ min 100 mci := le_min (by norm_num) hmci
    have hv1 : min 100 mci ≤ 100 := min_le_left _ _
    have hb := @round_int_bounds (min 100 mci * 10) 1000 (by positivity)
      (by push_cast; nlinarith : min 100 mci * 10 ≤ ((1000 : ℤ) : ℚ))
    constructor
    · refine div_nonneg ?_ (by norm_num)
      exact_mod_cast hb.1
    · rw [div_le_iff₀ (by norm_num : (0:ℚ) < 10)]
      calc ((round (min 100 mci * 10) : ℤ) : ℚ) ≤ ((1000 : ℤ) : ℚ) := by
            exact_mod_cast hb.2
        _ = 100 * 10 := by norm_num

/-- C5: for every input with non-negative numeric fields (and any values
of the three physical metrics), every component of the returned
`SustainabilityScore` lies in [0, 100], and `calculateMCI` lies in
[0, 100]. -/
theorem C5_score_bounds (input : LCAInput) (gwp energyIntensity waterFootprint : ℚ)
    (h : nonnegInput input = true) :
    (0 ≤ (calculateSustainabilityScore input gwp energyIntensity waterFootprint).overall ∧
      (calculateSustainabilityScore input gwp energyIntensity waterFootprint).overall ≤ 100) ∧
    (0 ≤ (calculateSustainabilityScore input gwp energyIntensity waterFootprint).gwpScore ∧
      (calculateSustainabilityScore input gwp energyIntensity waterFootprint).gwpScore ≤ 100) ∧
    (0 ≤ (calculateSustainabilityScore input gwp energyIntensity waterFootprint).energyScore ∧
      (calculateSustainabilityScore input gwp energyIntensity waterFootprint).energyScore ≤ 100) ∧
    (0 ≤ (calculateSustainabilityScore input gwp energyIntensity waterFootprint).waterScore ∧
      (calculateSustainabilityScore input gwp energyIntensity waterFootprint).waterScore ≤ 100) ∧
    (0 ≤ (calculateSustainabilityScore input gwp energyIntensity waterFootprint).wasteScore ∧
      (calculateSustainabilityScore input gwp energyIntensity waterFootprint).wasteScore ≤ 100) ∧
    (0 ≤ (calculateSustainabilityScore input gwp energyIntensity waterFootprint).mciScore ∧
      (calculateSustainabilityScore input gwp energyIntensity waterFootprint).mciScore ≤ 100) ∧
    (0 ≤ calculateMCI input ∧ calculateMCI input ≤ 100) := by
  obtain ⟨-, -, -, -, -, hr, -, hW⟩ := nonnegInput_props h
  have hg : 0 ≤ gwpScoreRaw input gwp ∧ gwpScoreRaw input gwp ≤ 100 := clamp_bounds _
  have he : 0 ≤ energyScoreRaw energyIntensity ∧ energyScoreRaw energyIntensity ≤ 100 :=
    clamp_bounds _
  have hw : 0 ≤ waterScoreRaw input waterFootprint ∧
      waterScoreRaw input waterFootprint ≤ 100 := clamp_bounds _
  have hws := wasteScoreRaw_bounds hW hr
  have hm := calculateMCI_bounds h
  have hOv : (calculateSustainabilityScore input gwp energyIntensity waterFootprint).overall =
      round (gwpScoreRaw input gwp * 0.30 + energyScoreRaw energyIntensity * 0.25 +
        waterScoreRaw input waterFootprint * 0.15 + wasteScoreRaw input * 0.15 +
        calculateMCI input * 0.15) := rfl
  have hGw : (calculateSustainabilityScore input gwp energyIntensity waterFootprint).gwpScore =
      round (gwpScoreRaw input gwp) := rfl
  have hEn : (calculateSustainabilityScore input gwp energyIntensity waterFootprint).energyScore =
      round (energyScoreRaw energyIntensity) := rfl
  have hWa : (calculateSustainabilityScore input gwp energyIntensity waterFootprint).waterScore =
      round (waterScoreRaw input waterFootprint) := rfl
  have hWs : (calculateSustainabilityScore input gwp energyIntensity waterFootprint).wasteScore =
      round (wasteScoreRaw input) := rfl
  have hMc : (calculateSustainabilityScore input gwp energyIntensity waterFootprint).mciScore =
      round (calculateMCI input) := rfl
  refine ⟨?_, ?_, ?_, ?_, ?_, ?_, hm⟩
  · rw [hOv]
    refine @round_int_bounds _ 100 (by nlinarith [hg.1, he.1, hw.1, hws.1, hm.1]) ?_
    push_cast
    nlinarith [hg.2, he.2, hw.2, hws.2, hm.2]
  · rw [hGw]
    exact @round_int_bounds _ 100 hg.1 (by push_cast; exact hg.2)
  · rw [hEn]
    exact @round_int_bounds _ 100 he.1 (by push_cast; exact he.2)
  · rw [hWa]
    exact @round_int_bounds _ 100 hw.1 (by push_cast; exact hw.2)
  · rw [hWs]
    exact @round_int_bounds _ 100 hws.1 (by push_cast; exact hws.2)
  · rw [hMc]
    exact @round_int_bounds _ 100 hm.1 (by push_cast; exact hm.2)

theorem C5_score_bounds_witness :
    (0 ≤ (calculateSustainabilityScore inputComplete 0 0 0).overall ∧
      (calculateSustainabilityScore inputComplete 0 0 0).overall ≤ 100) ∧
    (0 ≤ (calculateSustainabilityScore inputComplete 0 0 0).gwpScore ∧
      (calculateSustainabilityScore inputComplete 0 0 0).gwpScore ≤ 100) ∧
    (0 ≤ (calculateSustainabilityScore inputComplete 0 0 0).energyScore ∧
      (calculateSustainabilityScore inputComplete 0 0 0).energyScore ≤ 100) ∧
    (0 ≤ (calculateSustainabilityScore inputComplete 0 0 0).waterScore ∧
      (calculateSustainabilityScore inputComplete 0 0 0).waterScore ≤ 100) ∧
    (0 ≤ (calculateSustainabilityScore inputComplete 0 0 0).wasteScore ∧
      (calculateSustainabilityScore inputComplete 0 0 0).wasteScore ≤ 100) ∧
    (0 ≤ (calculateSustainabilityScore inputComplete 0 0 0).mciScore ∧
      (calculateSustainabilityScore inputComplete 0 0 0).mciScore ≤ 100) ∧
    (0 ≤ calculateMCI inputComplete ∧ calculateMCI inputComplete ≤ 100) :=
  C5_score_bounds inputComplete 0 0 0 (by decide)

/-! ## Claim C1: hotspot contribution machinery -/

theorem insertHotspot_contribSum (h : Hotspot) (l : List Hotspot) :
    ((insertHotspot h l).map fun x => x.contribution).sum =
      h.contribution + (l.map fun x => x.contribution).sum := by
  induction l with
  | nil => simp [insertHotspot]
  | cons x xs ih =>
    unfold insertHotspot
    split
    · simp
    · simp only [List.map_cons, List.sum_cons, ih]
      ring

theorem sortHotspots_contribSum (l : List Hotspot) :
    ((sortHotspots l).map fun x => x.contribution).sum =
      (l.map fun x => x.contribution).sum := by
  induction l with
  | nil => rfl
  | cons h t ih => simp [sortHotspots, insertHotspot_contribSum, ih]

/-- Error of one category's rounded contribution: at most 1/2, also when
the category is omitted because its GWP is 0. -/
theorem contrib_err_bound (g T : ℚ) (hg : 0 ≤ g) :
    |(((if g > 0 then round (g / T * 100) else (0 : ℤ)) : ℤ) : ℚ) - g / T * 100| ≤ 1 / 2 := by
  split
  · rw [abs_sub_comm]
    exact abs_sub_round _
  · next hng =>
    have hz : g = 0 := le_antisymm (not_lt.1 hng) hg
    simp [hz]

/-- C1 (amended): when the rounded total GWP is 0 the hotspot list is
empty; when it is positive, the contribution sum is within ±2 of
`100 × (unrounded category total) / (rounded total)` — each of the four
category contributions is rounded independently against the
2-decimal-rounded total, so the sum tracks that quotient, not 100
itself. -/
theorem C1_amended_contribution_sum (input : LCAInput)
    (hnn : nonnegInput input = true) :
    (calculateGWP input = 0 → identifyHotspots input = []) ∧
    (0 < calculateGWP input →
      |(((((identifyHotspots input).map fun x => x.contribution).sum : ℤ) : ℚ)) -
        100 * (energyGWPOf input + emissionsGWPOf input + transportGWPOf input +
          waterGWPOf input) / calculateGWP input| ≤ 2) := by
  constructor
  · intro h0
    simp [identifyHotspots, h0]
  · intro hpos
    obtain ⟨-, hE, hM, hWc, -, -, hTr, -⟩ := nonnegInput_props hnn
    have hg1 := energyGWPOf_nonneg hE
    have hg2 := transportGWPOf_nonneg hTr
    have hg3 := emissionsGWPOf_nonneg hM
    have hg4 := waterGWPOf_nonneg hWc
    have hsum : (((identifyHotspots input).map fun x => x.contribution).sum) =
        (if energyGWPOf input > 0 then
          round (energyGWPOf input / calculateGWP input * 100) else 0) +
        (if transportGWPOf input > 0 then
          round (transportGWPOf input / calculateGWP input * 100) else 0) +
        (if emissionsGWPOf input > 0 then
          round (emissionsGWPOf input / calculateGWP input * 100) else 0) +
        (if waterGWPOf input > 0 then
          round (waterGWPOf input / calculateGWP input * 100) else 0) := by
      simp only [identifyHotspots, if_neg hpos.ne']
      rw [sortHotspots_contribSum]
      simp [List.map_append, List.sum_append,
        apply_ite (List.map fun (x : Hotspot) => x.contribution),
        apply_ite List.sum]
      ring
    have hY : 100 * (energyGWPOf input + emissionsGWPOf input + transportGWPOf input +
        waterGWPOf input) / calculateGWP input =
        energyGWPOf input / calculateGWP input * 100 +
        transportGWPOf input / calculateGWP input * 100 +
        emissionsGWPOf input / calculateGWP input * 100 +
        waterGWPOf input / calculateGWP input * 100 := by
      ring
    have b1 := contrib_err_bound (energyGWPOf input) (calculateGWP input) hg1
    have b2 := contrib_err_bound (transportGWPOf input) (calculateGWP input) hg2
    have b3 := contrib_err_bound (emissionsGWPOf input) (calculateGWP input) hg3
    have b4 := contrib_err_bound (waterGWPOf input) (calculateGWP input) hg4
    rw [hsum]
    rw [abs_le]
    push_cast at b1 b2 b3 b4 ⊢
    rw [abs_le] at b1 b2 b3 b4
    constructor <;>
      linarith [hY, b1.1, b1.2, b2.1, b2.2, b3.1, b3.2, b4.1, b4.2]

/-- Tiny input whose only impact is a water consumption of 0.02 m³: the
unrounded total GWP is 0.00688 kg CO2e, which `calculateGWP` rounds up
to 0.01, shrinking every contribution quotient (0.688 and 68.8 are far
from rounding ties, so IEEE-double evaluation agrees with the exact
values here). -/
def inputC1 : LCAInput :=
  { projectName := "P"
    processType := "smelting"
    rawMaterials := []
    energy := []
    emissions := []
    water := { consumption := 1/50, discharge := 0, recycled := 0, unit := "m3" }
    transport := []
    waste := none
    companyName := none }

theorem calculateGWP_inputC1 : calculateGWP inputC1 = 1 / 100 := by
  have h1 : round ((86 : ℚ) / 125) = 1 := by
    rw [round_eq]
    norm_num [Int.floor_eq_iff]
  have harg : (energyGWPOf inputC1 + emissionsGWPOf inputC1 + transportGWPOf inputC1 +
      waterGWPOf inputC1) * 100 = 86 / 125 := by
    norm_num [energyGWPOf, emissionsGWPOf, transportGWPOf, waterGWPOf,
      WATER_FACTOR, inputC1]
  simp only [calculateGWP, harg, h1]
  norm_num

/-- C1 counterexample: `inputC1` has positive total GWP (0.01 after
rounding) but its single hotspot carries contribution
round(0.00688 / 0.01 × 100) = 69, so the contribution sum is not within
±1 of 100. -/
theorem C1_counterexample :
    0 < calculateGWP inputC1 ∧
    (((identifyHotspots inputC1).map fun x => x.contribution).sum = 69) ∧
    ¬(|(((identifyHotspots inputC1).map fun x => x.contribution).sum) - 100| ≤ 1) := by
  have hT := calculateGWP_inputC1
  have h69 : round ((344 : ℚ) / 5) = 69 := by
    rw [round_eq]
    norm_num [Int.floor_eq_iff]
  have hH : identifyHotspots inputC1 =
      [{ area := "Water Usage"
         impact := 43/6250
         contribution := 69
         recommendation := "Implement closed-loop water recycling systems" }] := by
    simp only [identifyHotspots, hT]
    norm_num [energyGWPOf, emissionsGWPOf, transportGWPOf, waterGWPOf,
      WATER_FACTOR, inputC1, sortHotspots, insertHotspot, h69]
  refine ⟨by rw [hT]; norm_num, ?_, ?_⟩ <;> rw [hH] <;> decide

theorem C1_amended_contribution_sum_witness :
    (calculateGWP inputComplete = 0 → identifyHotspots inputComplete = []) ∧
    (0 < calculateGWP inputComplete →
      |(((((identifyHotspots inputComplete).map fun x => x.contribution).sum : ℤ) : ℚ)) -
        100 * (energyGWPOf inputComplete + emissionsGWPOf inputComplete +
          transportGWPOf inputComplete + waterGWPOf inputComplete) /
            calculateGWP inputComplete| ≤ 2) :=
  C1_amended_contribution_sum inputComplete (by decide)

/-! ## Claim C6 -/

theorem insertHotspot_ne_nil (h : Hotspot) (l : List Hotspot) :
    insertHotspot h l ≠ [] := by
  cases l with
  | nil => simp [insertHotspot]
  | cons x xs =>
    unfold insertHotspot
    split <;> simp

theorem sortHotspots_ne_nil (h : Hotspot) (t : List Hotspot) :
    sortHotspots (h :: t) ≠ [] := by
  simp only [sortHotspots]
  exact insertHotspot_ne_nil _ _

/-- C6: an input with all lists empty and zero water consumption is fully
imputed: the result carries at least three warnings including Energy,
Water and Transport, and non-empty impacts, hotspots and SDG alignments
(the engine is total — no error branch exists in the embedding). -/
theorem C6_empty_input_graceful (input : LCAInput)
    (ai : Option (List String)) (now : String)
    (h1 : input.rawMaterials = []) (h2 : input.energy = [])
    (h3 : input.emissions = []) (h4 : input.transport = [])
    (h5 : input.water.consumption = 0) :
    3 ≤ (generateLCAResult input ai now).validationWarnings.length ∧
    "Energy" ∈ ((generateLCAResult input ai now).validationWarnings.map fun w => w.field) ∧
    "Water" ∈ ((generateLCAResult input ai now).validationWarnings.map fun w => w.field) ∧
    "Transport" ∈ ((generateLCAResult input ai now).validationWarnings.map fun w => w.field) ∧
    (generateLCAResult input ai now).impacts ≠ [] ∧
    (generateLCAResult input ai now).hotspots ≠ [] ∧
    (generateLCAResult input ai now).sdgAlignments ≠ [] := by
  have hEm : energyMissing input = true := by simp [energyMissing, h2]
  have hTm : transportMissing input = true := by simp [transportMissing, h4]
  have hMm : emissionsMissing input = true := by simp [emissionsMissing, h3]
  have hmat : materialKgOr1000 input = 1000 := by
    simp [materialKgOr1000, rawMaterialKg, h1]
  have hwarnproj : (generateLCAResult input ai now).validationWarnings =
      (validateAndApplyBenchmarks input).warnings := rfl
  have hfields : ((validateAndApplyBenchmarks input).warnings.map fun w => w.field) =
      "Energy" :: "Water" :: "Transport" :: "Emissions" ::
        (if projectNameMissing input = true then ["Project Name"] else []) := by
    simp [validateAndApplyBenchmarks, hEm, hTm, hMm, h5,
      apply_ite (List.map fun (w : ValidationWarning) => w.field)]
  have hlen : (generateLCAResult input ai now).validationWarnings.length =
      ((validateAndApplyBenchmarks input).warnings.map fun w => w.field).length := by
    rw [hwarnproj, List.length_map]
  have hvE : (validateAndApplyBenchmarks input).validatedInput.energy =
      [{ type := "electricity", amount := 500, unit := "kWh" }] := by
    simp only [validateAndApplyBenchmarks, hEm, if_true, hmat, BENCHMARKS]
    norm_num
  have hvT : (validateAndApplyBenchmarks input).validatedInput.transport =
      [{ mode := .truck, distance := 200, loadWeight := 1000 }] := by
    simp only [validateAndApplyBenchmarks, hTm, if_true, hmat, BENCHMARKS]
  have hvW : (validateAndApplyBenchmarks input).validatedInput.water.consumption = 5 := by
    simp only [validateAndApplyBenchmarks, if_pos h5, hmat, BENCHMARKS]
    norm_num
  have hvM : (validateAndApplyBenchmarks input).validatedInput.emissions = [] := by
    rw [show (validateAndApplyBenchmarks input).validatedInput.emissions =
      input.emissions from rfl, h3]
  have hE218 : energyGWPOf (validateAndApplyBenchmarks input).validatedInput = 218 := by
    unfold energyGWPOf
    rw [hvE]
    simp [energyFactor_eq_spec, specEnergyFactor]
    norm_num
  have hTr : transportGWPOf (validateAndApplyBenchmarks input).validatedInput = 621/50 := by
    unfold transportGWPOf
    rw [hvT]
    norm_num [TRANSPORT_FACTORS]
  have hWa : waterGWPOf (validateAndApplyBenchmarks input).validatedInput = 43/25 := by
    unfold waterGWPOf
    rw [hvW, WATER_FACTOR]
    norm_num
  have hMi : emissionsGWPOf (validateAndApplyBenchmarks input).validatedInput = 0 := by
    unfold emissionsGWPOf
    rw [hvM]
    simp
  have harg : (energyGWPOf (validateAndApplyBenchmarks input).validatedInput +
      emissionsGWPOf (validateAndApplyBenchmarks input).validatedInput +
      transportGWPOf (validateAndApplyBenchmarks input).validatedInput +
      waterGWPOf (validateAndApplyBenchmarks input).validatedInput) * 100 = (23214 : ℚ) := by
    rw [hE218, hMi, hTr, hWa]
    norm_num
  have hTtot : calculateGWP (validateAndApplyBenchmarks input).validatedInput = 11607/50 := by
    simp only [calculateGWP, harg, round_ofNat]
    norm_num
  have hne : identifyHotspots (validateAndApplyBenchmarks input).validatedInput ≠ [] := by
    simp only [identifyHotspots, hTtot, hE218]
    rw [if_neg (by norm_num : ¬((11607 : ℚ)/50 = 0)),
      if_pos (by norm_num : (218 : ℚ) > 0)]
    simp only [List.cons_append]
    exact sortHotspots_ne_nil _ _
  refine ⟨?_, ?_, ?_, ?_, List.cons_ne_nil _ _, hne, List.cons_ne_nil _ _⟩
  · rw [hlen, hfields]
    cases projectNameMissing input <;> simp
  · rw [hwarnproj, hfields]
    simp
  · rw [hwarnproj, hfields]
    simp
  · rw [hwarnproj, hfields]
    simp

theorem C6_empty_input_graceful_witness :
    3 ≤ (generateLCAResult inputC3 none "t").validationWarnings.length ∧
    "Energy" ∈ ((generateLCAResult inputC3 none "t").validationWarnings.map fun w => w.field) ∧
    "Water" ∈ ((generateLCAResult inputC3 none "t").validationWarnings.map fun w => w.field) ∧
    "Transport" ∈ ((generateLCAResult inputC3 none "t").validationWarnings.map fun w => w.field) ∧
    (generateLCAResult inputC3 none "t").impacts ≠ [] ∧
    (generateLCAResult inputC3 none "t").hotspots ≠ [] ∧
    (generateLCAResult inputC3 none "t").sdgAlignments ≠ [] :=
  C6_empty_input_graceful inputC3 none "t" rfl rfl rfl rfl rfl
